import Mathlib

/-!
Verification of the Claude-Code / Telegram bridge server
(`src/bridge_server.py`) and its pre-tool hook
(`hooks/hook_pre_tool_use.py`).

The bridge's module-level dictionaries are modelled as association
lists; every handler body that runs under the single `state_lock`
becomes one atomic Lean function from `BridgeState` to `BridgeState`
together with its outbound chat traffic.  The blocking `/approve`
endpoint is split at its suspension points into three atomic phases
(`request_approval_start`, `request_approval_timeout`,
`request_approval_finish`); between the phases any of the chat-side
handlers may run, which is how the concurrency claims are stated.
-/

namespace Bridge

/-! ### Association-list model of Python dicts -/

def dictGet {κ β : Type} [DecidableEq κ] (k : κ) : List (κ × β) → Option β
  | [] => none
  | p :: rest => if p.1 = k then some p.2 else dictGet k rest

def dictSet {κ β : Type} [DecidableEq κ] (k : κ) (v : β) : List (κ × β) → List (κ × β)
  | [] => [(k, v)]
  | p :: rest => if p.1 = k then (k, v) :: rest else p :: dictSet k v rest

def dictPop {κ β : Type} [DecidableEq κ] (k : κ) : List (κ × β) → List (κ × β)
  | [] => []
  | p :: rest => if p.1 = k then dictPop k rest else p :: dictPop k rest

/-! ### String helpers used by the handlers -/

/-- Substring test: Python's `needle in haystack`, on the char lists. -/
def charsStartWith : List Char → List Char → Bool
  | [], _ => true
  | _ :: _, [] => false
  | a :: as, b :: bs => a = b && charsStartWith as bs

def charsContain (needle : List Char) : List Char → Bool
  | [] => charsStartWith needle []
  | c :: rest => charsStartWith needle (c :: rest) || charsContain needle rest

def strIn (needle haystack : String) : Bool :=
  charsContain needle.data haystack.data

/-- `text[:n]` on a Python string. -/
def strTake (n : Nat) (text : String) : String :=
  String.mk (text.data.take n)

/-- `_escape_md`: backslash-prefix every MarkdownV2 special character. -/
def escapeMdChars : List Char :=
  ['_', '*', '[', ']', '(', ')', '~', '`', '>', '#', '+', '-', '=', '|',
   '\x7b', '\x7d', '.', '!', '\\']

def escapeMd (text : String) : String :=
  String.mk (text.data.flatMap (fun c =>
    if c ∈ escapeMdChars then ['\\', c] else [c]))

/-! ### Data model -/

structure Config where
  telegramChatId : Int
  approvalTimeout : Nat
deriving Repr, DecidableEq

/-- One entry of `pending_approvals`.  `response`/`reason`/`user_message`
are the result slot; `eventSet` models the one-shot `asyncio.Event`.
`fillCount` and `signalCount` are ghost instrumentation, incremented at
exactly the code points where a producer assigns the result slot
respectively calls `event.set()`. -/
structure ApprovalRecord where
  response : Option String
  reason : String
  userMessage : String
  agentId : String
  agentName : String
  toolName : String
  createdAt : Nat
  eventSet : Bool
  fillCount : Nat
  signalCount : Nat
deriving Repr, DecidableEq

/-- One entry of `active_sessions`.  A session created by the
`approve_all` button (rather than `/register_agent`) has no
`registered_at` key, hence the `Option`. -/
structure Session where
  name : String
  registeredAt : Option Nat
  autoApprove : Bool
deriving Repr, DecidableEq

structure BridgeState where
  pendingApprovals : List (String × ApprovalRecord)
  activeSessions : List (String × Session)
  messageQueues : List (String × List String)
  messageToRequest : List (Nat × String)
  bridgePaused : Bool
deriving Repr, DecidableEq

def initialState : BridgeState :=
  { pendingApprovals := [], activeSessions := [], messageQueues := [],
    messageToRequest := [], bridgePaused := false }

/-- Outbound chat traffic.  `message` covers `bot.send_message` and
`reply_text` (a chat message delivered to `chatId`); `callbackAnswer`
is `query.answer` (a transient toast/alert on the pressed button, not a
chat message); `editMessage` is `query.edit_message_text`. -/
inductive ChatOut
  | message (chatId : Int) (text : String)
  | messageWithKeyboard (chatId : Int) (text : String)
  | callbackAnswer (text : String) (showAlert : Bool)
  | editMessage (messageId : Nat) (text : String)
  | scheduleExit
deriving Repr, DecidableEq

/-- Chat messages proper (what the operator's chat receives), as
opposed to button-press alerts and edits. -/
def ChatOut.isChatMessage : ChatOut → Bool
  | .message _ _ => true
  | .messageWithKeyboard _ _ => true
  | _ => false

/-! ### `/notify` -/

structure NotificationRequest where
  agentId : String
  agentName : String
  message : String
  level : String
deriving Repr, DecidableEq

def levelEmoji (level : String) : String :=
  if level = "info" then "ℹ️"
  else if level = "success" then "✅"
  else if level = "warning" then "⚠️"
  else if level = "error" then "❌"
  else if level = "task_complete" then "🏁"
  else "📌"

inductive NotifyResult
  | sent
  | sentPlain
  | httpError (statusCode : Nat)
deriving Repr, DecidableEq

/-- `/notify`: rich MarkdownV2 first; on send failure retry once as
plain text; on a second failure raise `HTTPException(500)`.  The two
`richOk`/`plainOk` flags are the outcome of the two possible
`bot.send_message` calls. -/
def notify (cfg : Config) (req : NotificationRequest) (richOk plainOk : Bool) :
    List ChatOut × NotifyResult :=
  let emoji := levelEmoji req.level
  let richText := emoji ++ " *" ++ escapeMd req.agentName ++ "*\n\n" ++ escapeMd req.message
  if richOk then
    ([ChatOut.message cfg.telegramChatId richText], NotifyResult.sent)
  else if plainOk then
    ([ChatOut.message cfg.telegramChatId (emoji ++ " " ++ req.agentName ++ "\n\n" ++ req.message)],
     NotifyResult.sentPlain)
  else
    ([], NotifyResult.httpError 500)

/-! ### `/approve` (three atomic phases) -/

structure ApprovalRequest where
  agentId : String
  agentName : String
  toolName : String
  toolInput : String
  description : String
  timeout : Nat
deriving Repr, DecidableEq

/-- The decision is `Option String` because the Python endpoint can in
principle return the record's initial `None` response
(`result.get("response", "deny")` finds the key, whose value is `None`,
whenever the slot was never assigned). -/
structure ApproveResponse where
  decision : Option String
  reason : String
  requestId : Option String
deriving Repr, DecidableEq

def toolInputDisplay (toolInput : String) : String :=
  if toolInput.length > 500 then strTake 500 toolInput ++ "..." else toolInput

def lastThree (l : List String) : List String :=
  l.drop (l.length - 3)

def pendingMessagesBlockRich (pendingMessages : List String) : String :=
  if pendingMessages = [] then ""
  else
    "\n📨 *Messages en attente:*\n" ++
      String.join ((lastThree pendingMessages).map
        (fun m => "• " ++ escapeMd (strTake 100 m) ++ "\n"))

def approvalPromptRich (req : ApprovalRequest) (requestId : String)
    (pendingMessages : List String) : String :=
  let tid := toolInputDisplay req.toolInput
  "🔐 *Approbation requise*\n\n" ++
  "*Agent:* " ++ escapeMd req.agentName ++ "\n" ++
  "*Outil:* `" ++ escapeMd req.toolName ++ "`\n" ++
  (if req.description ≠ "" then "*Description:* " ++ escapeMd req.description ++ "\n" else "") ++
  (if tid ≠ "" then "\n```\n" ++ escapeMd tid ++ "\n```\n" else "") ++
  pendingMessagesBlockRich pendingMessages ++
  "\n_ID: " ++ requestId ++ "_\n" ++
  "_💡 Réponds à ce message pour envoyer des instructions_"

def approvalPromptPlain (req : ApprovalRequest) (requestId : String)
    (pendingMessages : List String) : String :=
  let tid := toolInputDisplay req.toolInput
  "🔐 Approbation requise\n\n" ++
  "Agent: " ++ req.agentName ++ "\n" ++
  "Outil: " ++ req.toolName ++ "\n" ++
  (if req.description ≠ "" then "Description: " ++ req.description ++ "\n" else "") ++
  (if tid ≠ "" then "\nInput:\n" ++ tid ++ "\n" else "") ++
  (if pendingMessages ≠ [] then
     "\n📨 Messages en attente:\n" ++
       String.join ((lastThree pendingMessages).map (fun m => "• " ++ strTake 100 m ++ "\n"))
   else "") ++
  "\nID: " ++ requestId ++
  "\n💡 Réponds à ce message pour envoyer des instructions"

/-- Outcome of the first phase of `/approve` (everything up to the
latch wait).  `passthrough`: the paused short-circuit returned at once.
`started`: the prompt was sent (possibly via the plain fallback), the
record created and the message id mapped; the endpoint now waits on the
latch holding the peeked copy `pendingMessagesCopy`.  `sendFailed`:
both the rich send and the plain fallback raised — the exception
propagates out of the endpoint (the hook sees an HTTP 500, not a
decision) with the freshly created record still in the store. -/
inductive StartOutcome
  | passthrough (resp : ApproveResponse)
  | started (pendingMessagesCopy : List String) (sentMessageId : Nat) (plainFallback : Bool)
  | sendFailed
deriving Repr, DecidableEq

def freshRecord (req : ApprovalRequest) (now : Nat) : ApprovalRecord :=
  { response := none, reason := "", userMessage := "",
    agentId := req.agentId, agentName := req.agentName, toolName := req.toolName,
    createdAt := now, eventSet := false, fillCount := 0, signalCount := 0 }

def request_approval_start (cfg : Config) (req : ApprovalRequest) (requestId : String)
    (now : Nat) (sentMessageId : Nat) (richOk plainOk : Bool) (s : BridgeState) :
    BridgeState × List ChatOut × StartOutcome :=
  if s.bridgePaused then
    (s, [], StartOutcome.passthrough ⟨some "passthrough", "bridge_paused", none⟩)
  else
    -- peek (without draining): `pending_messages = message_queues[agent].copy()`
    let pendingMessages := match dictGet req.agentId s.messageQueues with
      | some q => q
      | none => []
    -- the record is stored before the send is attempted
    let s1 :=
      { s with pendingApprovals := dictSet requestId (freshRecord req now) s.pendingApprovals }
    if richOk then
      ({ s1 with messageToRequest := dictSet sentMessageId requestId s1.messageToRequest },
       [ChatOut.messageWithKeyboard cfg.telegramChatId
          (approvalPromptRich req requestId pendingMessages)],
       StartOutcome.started pendingMessages sentMessageId false)
    else if plainOk then
      ({ s1 with messageToRequest := dictSet sentMessageId requestId s1.messageToRequest },
       [ChatOut.messageWithKeyboard cfg.telegramChatId
          (approvalPromptPlain req requestId pendingMessages)],
       StartOutcome.started pendingMessages sentMessageId true)
    else
      (s1, [], StartOutcome.sendFailed)

def timeoutNotice (requestId : String) (timeout : Nat) : String :=
  "⏰ Approbation " ++ requestId ++ " expirée (timeout " ++ toString timeout ++
    "s). Refus par défaut."

/-- The `asyncio.TimeoutError` branch of `/approve`: runs only if the
latch was never signaled before the deadline. -/
def request_approval_timeout (cfg : Config) (req : ApprovalRequest) (requestId : String)
    (sentMessageId : Option Nat) (s : BridgeState) :
    BridgeState × List ChatOut × ApproveResponse :=
  let s1 := { s with
    pendingApprovals := dictPop requestId s.pendingApprovals,
    messageToRequest := (match sentMessageId with
      | some mid => dictPop mid s.messageToRequest
      | none => s.messageToRequest) }
  (s1, [ChatOut.message cfg.telegramChatId (timeoutNotice requestId req.timeout)],
   ⟨some "deny", "timeout", none⟩)

/-- The signaled branch of `/approve`: take the record, unmap the
prompt message id, clear the agent's whole queue, and compose the
response from the result slot plus the `pendingMessagesCopy` captured
by `request_approval_start`. -/
def request_approval_finish (req : ApprovalRequest) (requestId : String)
    (sentMessageId : Option Nat) (pendingMessagesCopy : List String) (s : BridgeState) :
    BridgeState × ApproveResponse :=
  let result := dictGet requestId s.pendingApprovals
  let s1 := { s with
    pendingApprovals := dictPop requestId s.pendingApprovals,
    messageToRequest := (match sentMessageId with
      | some mid => dictPop mid s.messageToRequest
      | none => s.messageToRequest),
    -- `if req.agent_id in message_queues: message_queues[req.agent_id].clear()`
    messageQueues := (match dictGet req.agentId s.messageQueues with
      | some _ => dictSet req.agentId [] s.messageQueues
      | none => s.messageQueues) }
  let decision : Option String := match result with
    | some r => r.response
    | none => some "deny"
  let reason0 := match result with
    | some r => r.reason
    | none => ""
  let userMessage := match result with
    | some r => r.userMessage
    | none => ""
  let allMessages := pendingMessagesCopy ++ (if userMessage ≠ "" then [userMessage] else [])
  let reason := if allMessages ≠ [] then
      reason0 ++ "\n\nUser instructions:\n" ++ String.intercalate "\n" allMessages
    else reason0
  (s1, ⟨decision, reason, some requestId⟩)

/-! ### `/send_message`, `/check_auto_approve`, `/register_agent`, `/unregister_agent` -/

/-- One check of the `/send_message` drain: if the agent's queue is
non-empty, copy it, clear it and return the copy; otherwise return
nothing (the endpoint repeats this check every second up to its
timeout, so one drain step is the whole observable effect). -/
def send_message_drain (agentId : String) (s : BridgeState) : BridgeState × List String :=
  match dictGet agentId s.messageQueues with
  | some q =>
    if q ≠ [] then
      ({ s with messageQueues := dictSet agentId [] s.messageQueues }, q)
    else (s, [])
  | none => (s, [])

def check_auto_approve (agentId : String) (s : BridgeState) : Bool :=
  match dictGet agentId s.activeSessions with
  | some session => session.autoApprove
  | none => false

def register_agent (agentId agentName : String) (now : Nat) (s : BridgeState) : BridgeState :=
  let s1 :=
    { s with activeSessions := dictSet agentId ⟨agentName, some now, false⟩ s.activeSessions }
  match dictGet agentId s1.messageQueues with
  | some _ => s1
  | none => { s1 with messageQueues := dictSet agentId [] s1.messageQueues }

def unregister_agent (agentId : String) (s : BridgeState) : BridgeState :=
  { s with activeSessions := dictPop agentId s.activeSessions,
           messageQueues := dictPop agentId s.messageQueues }

/-! ### Telegram command handlers

Each handler takes the chat id of the inbound update and, following
the source, replies (or stays silent) when it differs from the
configured `telegram_chat_id`.  The `reply_text` send is modelled as
succeeding; its Markdown-parse fallback (present in `cmd_status`)
only reformats the same text and is not modelled separately. -/

def startHelpText : String :=
  "🤖 *Claude Code Bridge* est actif\\!\n\n" ++
  "*Commandes:*\n" ++
  "/status \\- État du bridge\n" ++
  "/agents \\- Agents actifs\n" ++
  "/msg `agent_id` `message` \\- Envoyer un message à un agent\n" ++
  "/pending \\- Approbations en attente\n" ++
  "/approve\\_all \\- Tout approuver\n" ++
  "/deny\\_all \\- Tout refuser\n" ++
  "/pause \\- Approbations sur le terminal\n" ++
  "/resume \\- Approbations sur Telegram\n" ++
  "/shutdown \\- Arrêter le bridge\n\n" ++
  "*💡 Astuce:* Réponds directement à une demande d'approbation pour envoyer des instructions à l'agent\\!"

def cmd_start (cfg : Config) (chatId : Int) (s : BridgeState) : BridgeState × List ChatOut :=
  if chatId ≠ cfg.telegramChatId then
    (s, [ChatOut.message chatId "⛔ Non autorisé."])
  else
    (s, [ChatOut.message chatId startHelpText])

def statusText (now : Nat) (s : BridgeState) : String :=
  let pauseStatus := if s.bridgePaused then "⏸️ PAUSE (terminal)" else "▶️ ACTIF (telegram)"
  let pendingList :=
    if s.pendingApprovals = [] then ""
    else
      "\n\n*Approbations en attente:*\n" ++
        String.join (s.pendingApprovals.map (fun p =>
          "• `" ++ p.1 ++ "` " ++ p.2.toolName ++ " (" ++ toString (now - p.2.createdAt) ++ "s)\n"))
  let queued := (s.messageQueues.map (fun q => q.2.length)).sum
  "📊 *Bridge Status*\n\n" ++
  "• Mode: " ++ pauseStatus ++ "\n" ++
  "• Approbations en attente: " ++ toString s.pendingApprovals.length ++ "\n" ++
  "• Sessions actives: " ++ toString s.activeSessions.length ++ "\n" ++
  "• Messages en file: " ++ toString queued ++
  pendingList

def cmd_status (cfg : Config) (chatId : Int) (now : Nat) (s : BridgeState) :
    BridgeState × List ChatOut :=
  if chatId ≠ cfg.telegramChatId then (s, [])
  else (s, [ChatOut.message chatId (statusText now s)])

def cmd_agents (cfg : Config) (chatId : Int) (s : BridgeState) : BridgeState × List ChatOut :=
  if chatId ≠ cfg.telegramChatId then (s, [])
  else if s.activeSessions = [] then
    (s, [ChatOut.message chatId
      "Aucun agent actif.\n\nL'agent s'enregistre automatiquement lors de sa première action."])
  else
    (s, [ChatOut.message chatId (String.intercalate "\n"
      ("🤖 Agents actifs:\n" ::
        s.activeSessions.map (fun p => "• " ++ p.2.name ++ " (id: `" ++ p.1 ++ "`)")))])

def msgUsageText : String :=
  "Usage: `/msg <agent_id> <message>`\n\n" ++
  "Exemple: `/msg main Concentre-toi sur les tests`\n\n" ++
  "💡 Ou réponds directement à une demande d'approbation!"

/-- `message_queues.setdefault(agent_id, []).append(message)`. -/
def enqueueMessage (agentId text : String) (queues : List (String × List String)) :
    List (String × List String) :=
  match dictGet agentId queues with
  | some q => dictSet agentId (q ++ [text]) queues
  | none => dictSet agentId [text] queues

def cmd_msg (cfg : Config) (chatId : Int) (args : List String) (s : BridgeState) :
    BridgeState × List ChatOut :=
  if chatId ≠ cfg.telegramChatId then (s, [])
  else match args with
    | agentId :: rest =>
      if rest = [] then (s, [ChatOut.message chatId msgUsageText])
      else
        let message := String.intercalate " " rest
        let queues := enqueueMessage agentId message s.messageQueues
        let queueSize := ((dictGet agentId queues).getD []).length
        ({ s with messageQueues := queues },
         [ChatOut.message chatId
           ("📨 Message ajouté à la file de `" ++ agentId ++ "` (" ++ toString queueSize ++
            " en attente)\n\n_Le message sera transmis lors de la prochaine demande d'approbation._")])
    | [] => (s, [ChatOut.message chatId msgUsageText])

def cmd_pending (cfg : Config) (chatId : Int) (now : Nat) (s : BridgeState) :
    BridgeState × List ChatOut :=
  if chatId ≠ cfg.telegramChatId then (s, [])
  else if s.pendingApprovals = [] then
    (s, [ChatOut.message chatId "✅ Aucune approbation en attente."])
  else
    (s, [ChatOut.message chatId (String.intercalate "\n"
      ("🔐 Approbations en attente:\n" ::
        s.pendingApprovals.map (fun p =>
          "• [" ++ p.1 ++ "] " ++ p.2.agentName ++ " → " ++ p.2.toolName ++
            " (" ++ toString (now - p.2.createdAt) ++ "s)")))])

/-- A producer writing the result slot and signaling the latch.  Used
verbatim by the `approve`/`deny` buttons and the bulk commands; the
ghost counters record the write and the `event.set()`. -/
def fillRecord (response reason : String) (r : ApprovalRecord) : ApprovalRecord :=
  { r with response := some response, reason := reason, eventSet := true,
           fillCount := r.fillCount + 1, signalCount := r.signalCount + 1 }

def cmd_approve_all (cfg : Config) (chatId : Int) (s : BridgeState) :
    BridgeState × List ChatOut :=
  if chatId ≠ cfg.telegramChatId then (s, [])
  else
    let count := s.pendingApprovals.length
    ({ s with pendingApprovals :=
        s.pendingApprovals.map (fun p => (p.1, fillRecord "approve" "bulk approved" p.2)) },
     [ChatOut.message chatId ("✅ " ++ toString count ++ " approbation(s) approuvée(s).")])

def cmd_deny_all (cfg : Config) (chatId : Int) (s : BridgeState) :
    BridgeState × List ChatOut :=
  if chatId ≠ cfg.telegramChatId then (s, [])
  else
    let count := s.pendingApprovals.length
    ({ s with pendingApprovals :=
        s.pendingApprovals.map (fun p => (p.1, fillRecord "deny" "bulk denied" p.2)) },
     [ChatOut.message chatId ("❌ " ++ toString count ++ " approbation(s) refusée(s).")])

def cmd_shutdown (cfg : Config) (chatId : Int) (args : List String) (s : BridgeState) :
    BridgeState × List ChatOut :=
  if chatId ≠ cfg.telegramChatId then
    (s, [ChatOut.message chatId "⛔ Non autorisé."])
  else match args with
    | a :: _ =>
      if a.toLower = "confirm" then
        (s, [ChatOut.message chatId "🔴 Arrêt du bridge en cours...", ChatOut.scheduleExit])
      else
        (s, [ChatOut.message chatId
          "⚠️ Es-tu sûr de vouloir arrêter le bridge?\n\nTape `/shutdown confirm` pour confirmer."])
    | [] =>
      (s, [ChatOut.message chatId
        "⚠️ Es-tu sûr de vouloir arrêter le bridge?\n\nTape `/shutdown confirm` pour confirmer."])

def cmd_pause (cfg : Config) (chatId : Int) (s : BridgeState) : BridgeState × List ChatOut :=
  if chatId ≠ cfg.telegramChatId then (s, [])
  else
    ({ s with bridgePaused := true },
     [ChatOut.message chatId
       ("⏸️ Bridge en PAUSE\n\n" ++
        "Les approbations sont maintenant gérées dans le terminal.\n" ++
        "Tu peux interagir directement avec Claude Code.\n\n" ++
        "Tape /resume pour reprendre le contrôle sur Telegram.")])

def cmd_resume (cfg : Config) (chatId : Int) (s : BridgeState) : BridgeState × List ChatOut :=
  if chatId ≠ cfg.telegramChatId then (s, [])
  else
    ({ s with bridgePaused := false },
     [ChatOut.message chatId
       "▶️ Bridge ACTIF\n\nLes demandes d'approbation seront envoyées sur Telegram."])

/-! ### Button callbacks and free text -/

/-- An inline-button press.  `action` and `requestId` are the two
halves of `query.data.split(":", 1)`; `messageId`/`messageText` come
from the prompt message the button is attached to. -/
structure CallbackQuery where
  chatId : Int
  messageId : Nat
  messageText : String
  action : String
  requestId : String
deriving Repr, DecidableEq

def handle_callback (cfg : Config) (q : CallbackQuery) (s : BridgeState) :
    BridgeState × List ChatOut :=
  if q.chatId ≠ cfg.telegramChatId then
    (s, [ChatOut.callbackAnswer "Non autorisé" true])
  else match dictGet q.requestId s.pendingApprovals with
    | none => (s, [ChatOut.callbackAnswer "⚠️ Requête expirée ou déjà traitée" true])
    | some info =>
      if q.action = "approve" then
        ({ s with pendingApprovals :=
            dictSet q.requestId (fillRecord "approve" "user approved" info) s.pendingApprovals },
         [ChatOut.callbackAnswer "✅ Approuvé!" false,
          ChatOut.editMessage q.messageId (q.messageText ++ "\n\n✅ APPROUVÉ")])
      else if q.action = "deny" then
        ({ s with pendingApprovals :=
            dictSet q.requestId (fillRecord "deny" "user denied" info) s.pendingApprovals },
         [ChatOut.callbackAnswer "❌ Refusé!" false,
          ChatOut.editMessage q.messageId (q.messageText ++ "\n\n❌ REFUSÉ")])
      else if q.action = "approve_all" then
        let newSession : Session := match dictGet info.agentId s.activeSessions with
          | some prev => { prev with autoApprove := true, name := info.agentName }
          | none => { name := info.agentName, registeredAt := none, autoApprove := true }
        ({ s with
            pendingApprovals := dictSet q.requestId
              (fillRecord "approve" "user approved (session auto-approve enabled)" info)
              s.pendingApprovals,
            activeSessions := dictSet info.agentId newSession s.activeSessions },
         [ChatOut.callbackAnswer "✅ Approuvé! Auto-approbation activée pour cette session." false,
          ChatOut.editMessage q.messageId (q.messageText ++ "\n\n✅ APPROUVÉ (auto-approve ON)")])
      else (s, [])

/-- The message a free-text update replies to, when any. -/
structure ReplyInfo where
  messageId : Nat
  fromBot : Bool
  text : String
deriving Repr, DecidableEq

structure TextUpdate where
  chatId : Int
  text : String
  replyTo : Option ReplyInfo
deriving Repr, DecidableEq

/-- `for aid in list(active_sessions.keys()) + ["main"]: if aid in reply_text: ...` -/
def findAgentIdIn (candidates : List String) (replyText : String) : String :=
  match candidates with
  | [] => "main"
  | aid :: rest => if strIn aid replyText then aid else findAgentIdIn rest replyText

def replyAckText (text : String) : String :=
  "✅ Approuvé avec instructions!\n\nMessage transmis: _" ++ strTake 100 text ++
    (if text.length > 100 then "..." else "") ++ "_"

/-- The tail of `handle_text_message`: the free text is not a reply
that completes an approval, so route it into an agent queue.
`agent_id = "main"` by default; a reply to a previous *bot* message is
routed to the first known agent id that occurs in that message's
text. -/
def queueFreeText (u : TextUpdate) (s : BridgeState) : BridgeState × List ChatOut :=
  let agentId := match u.replyTo with
    | some rep =>
      if rep.fromBot then
        findAgentIdIn (s.activeSessions.map (fun p => p.1) ++ ["main"]) rep.text
      else "main"
    | none => "main"
  let queues := enqueueMessage agentId u.text s.messageQueues
  let queueSize := ((dictGet agentId queues).getD []).length
  ({ s with messageQueues := queues },
   [ChatOut.message u.chatId
     ("📨 Message ajouté à la file de `" ++ agentId ++ "` (" ++ toString queueSize ++
      " en attente)\n\n_Sera transmis à la prochaine demande d'approbation._")])

def handle_text_message (cfg : Config) (u : TextUpdate) (s : BridgeState) :
    BridgeState × List ChatOut :=
  if u.chatId ≠ cfg.telegramChatId then (s, [])
  else match u.replyTo with
    | some rep =>
      -- reply to an approval prompt: complete that approval and return
      match dictGet rep.messageId s.messageToRequest with
      | some requestId =>
        match dictGet requestId s.pendingApprovals with
        | some info =>
          let filled :=
            { info with userMessage := u.text, response := some "approve",
                        reason := "approved with instructions", eventSet := true,
                        fillCount := info.fillCount + 1,
                        signalCount := info.signalCount + 1 }
          ({ s with pendingApprovals := dictSet requestId filled s.pendingApprovals },
           [ChatOut.message u.chatId (replyAckText u.text)])
        | none => queueFreeText u s
      | none => queueFreeText u s
    | none => queueFreeText u s

/-! ### Inbound chat dispatch (the registered Telegram handlers) -/

inductive Inbound
  | startCmd (chatId : Int)
  | statusCmd (chatId : Int) (now : Nat)
  | agentsCmd (chatId : Int)
  | msgCmd (chatId : Int) (args : List String)
  | pendingCmd (chatId : Int) (now : Nat)
  | approveAllCmd (chatId : Int)
  | denyAllCmd (chatId : Int)
  | shutdownCmd (chatId : Int) (args : List String)
  | pauseCmd (chatId : Int)
  | resumeCmd (chatId : Int)
  | callback (q : CallbackQuery)
  | freeText (u : TextUpdate)
deriving Repr, DecidableEq

def Inbound.chatId : Inbound → Int
  | .startCmd c => c
  | .statusCmd c _ => c
  | .agentsCmd c => c
  | .msgCmd c _ => c
  | .pendingCmd c _ => c
  | .approveAllCmd c => c
  | .denyAllCmd c => c
  | .shutdownCmd c _ => c
  | .pauseCmd c => c
  | .resumeCmd c => c
  | .callback q => q.chatId
  | .freeText u => u.chatId

def dispatch (cfg : Config) (ev : Inbound) (s : BridgeState) : BridgeState × List ChatOut :=
  match ev with
  | .startCmd c => cmd_start cfg c s
  | .statusCmd c now => cmd_status cfg c now s
  | .agentsCmd c => cmd_agents cfg c s
  | .msgCmd c args => cmd_msg cfg c args s
  | .pendingCmd c now => cmd_pending cfg c now s
  | .approveAllCmd c => cmd_approve_all cfg c s
  | .denyAllCmd c => cmd_deny_all cfg c s
  | .shutdownCmd c args => cmd_shutdown cfg c args s
  | .pauseCmd c => cmd_pause cfg c s
  | .resumeCmd c => cmd_resume cfg c s
  | .callback q => handle_callback cfg q s
  | .freeText u => handle_text_message cfg u s

/-! ### Interleaved executions

An `Ev` is one atomic state transition of the bridge: a chat-side
handler run, one of the hook endpoints, or one phase of a blocked
`/approve` call.  A run of the system is a fold of `stepEv` over a
list of events. -/

inductive Ev
  | inbound (ev : Inbound)
  | reg (agentId agentName : String) (now : Nat)
  | unreg (agentId : String)
  | drain (agentId : String)
  | approveStart (req : ApprovalRequest) (requestId : String) (now sentMessageId : Nat)
      (richOk plainOk : Bool)
  | approveFinish (req : ApprovalRequest) (requestId : String) (sentMessageId : Option Nat)
      (pendingMessagesCopy : List String)
  | approveTimeout (req : ApprovalRequest) (requestId : String) (sentMessageId : Option Nat)

def stepEv (cfg : Config) (s : BridgeState) : Ev → BridgeState
  | .inbound ev => (dispatch cfg ev s).1
  | .reg agentId agentName now => register_agent agentId agentName now s
  | .unreg agentId => unregister_agent agentId s
  | .drain agentId => (send_message_drain agentId s).1
  | .approveStart req rid now mid richOk plainOk =>
    (request_approval_start cfg req rid now mid richOk plainOk s).1
  | .approveFinish req rid mid pend => (request_approval_finish req rid mid pend s).1
  | .approveTimeout req rid mid => (request_approval_timeout cfg req rid mid s).1

def runEvents (cfg : Config) (evs : List Ev) (s : BridgeState) : BridgeState :=
  evs.foldl (stepEv cfg) s

/-- Does this event register or unregister the given agent? -/
def Ev.touchesRegistration (agentId : String) : Ev → Bool
  | .reg a _ _ => a = agentId
  | .unreg a => a = agentId
  | _ => false

end Bridge

namespace Hook

/-! ### `hooks/hook_pre_tool_use.py`

The hook is a straight-line script; we model the valid-input path
(stdin parsed, `tool_name` extracted) as a function of the environment
mode, the tool name, and the observable outcomes of its HTTP calls.
`mode` is the already-lowercased `CLAUDE_BRIDGE_MODE`;
`bridgeAvailable` is whether the `GET /status` probe succeeded;
`autoApprove` is the bridge's `/check_auto_approve` answer; and
`approveDecision` the bridge's `/approve` decision.  `calls` lists the
HTTP requests the hook issued, in order; `output` is the JSON decision
printed on stdout (`none` when the hook emits nothing). -/

def CRITICAL_TOOLS : List String := ["bash", "write", "edit", "execute"]

def SAFE_TOOLS : List String := ["read", "list_files", "search", "grep", "glob", "view"]

inductive HookCall
  | statusProbe
  | notifyPost
  | checkAutoApprovePost
  | approvePost
deriving Repr, DecidableEq

structure HookOutcome where
  calls : List HookCall
  output : Option String
deriving Repr, DecidableEq

def hook_pre_tool_use (mode toolName : String) (bridgeAvailable autoApprove : Bool)
    (approveDecision : String) : HookOutcome :=
  if mode = "local" then ⟨[], none⟩
  else if SAFE_TOOLS.contains toolName then ⟨[], some "approve"⟩
  else if ¬ bridgeAvailable then ⟨[HookCall.statusProbe], some "approve"⟩
  else if mode = "notify" then
    ⟨[HookCall.statusProbe, HookCall.notifyPost], some "approve"⟩
  else if ¬ CRITICAL_TOOLS.contains toolName then
    if autoApprove then
      ⟨[HookCall.statusProbe, HookCall.checkAutoApprovePost], some "approve"⟩
    else
      ⟨[HookCall.statusProbe, HookCall.checkAutoApprovePost, HookCall.approvePost],
       if approveDecision = "passthrough" then none else some approveDecision⟩
  else
    ⟨[HookCall.statusProbe, HookCall.approvePost],
     if approveDecision = "passthrough" then none else some approveDecision⟩

end Hook

namespace Bridge

/-! ## Lemmas about the dictionary model -/

theorem dictGet_set {κ β : Type} [DecidableEq κ] (k k' : κ) (v : β) (l : List (κ × β)) :
    dictGet k (dictSet k' v l) = if k' = k then some v else dictGet k l := by
  induction l with
  | nil => simp [dictGet, dictSet]
  | cons p rest ih =>
    by_cases h1 : p.1 = k' <;> by_cases h2 : k' = k <;> by_cases h3 : p.1 = k <;>
      simp_all [dictGet, dictSet]

theorem dictGet_pop {κ β : Type} [DecidableEq κ] (k k' : κ) (l : List (κ × β)) :
    dictGet k (dictPop k' l) = if k' = k then none else dictGet k l := by
  induction l with
  | nil => simp [dictGet, dictPop]
  | cons p rest ih =>
    by_cases h1 : p.1 = k' <;> by_cases h2 : k' = k <;> by_cases h3 : p.1 = k <;>
      simp_all [dictGet, dictPop]

/-! ## Shared concrete scenario material -/

def testConfig : Config := ⟨123, 300⟩

def reqBash : ApprovalRequest :=
  { agentId := "main", agentName := "CC", toolName := "bash", toolInput := "ls /",
    description := "", timeout := 10 }

def pausedState : BridgeState := { initialState with bridgePaused := true }

/-- The literal chat notice quoted by the specification for an expired
approval (the code prefixes it with an alarm-clock emoji). -/
def expiredNoticeBody (requestId : String) (timeout : Nat) : String :=
  "Approbation " ++ requestId ++ " expirée (timeout " ++ toString timeout ++
    "s). Refus par défaut."

theorem timeoutNotice_eq (requestId : String) (timeout : Nat) :
    timeoutNotice requestId timeout = "⏰ " ++ expiredNoticeBody requestId timeout := by
  unfold timeoutNotice expiredNoticeBody
  simp only [← String.append_assoc]
  rfl

/-! ## Claim C3 -/

/-- Claim C3: whenever the global pause flag is true, `/approve`
returns `{decision: "passthrough", reason: "bridge_paused"}`
immediately, creates no approval record (the state is returned
untouched) and sends no chat message, whatever the request, the send
outcomes, or the rest of the state. -/
theorem C3_paused_passthrough (cfg : Config) (req : ApprovalRequest) (requestId : String)
    (now sentMessageId : Nat) (richOk plainOk : Bool) (s : BridgeState)
    (h : s.bridgePaused = true) :
    request_approval_start cfg req requestId now sentMessageId richOk plainOk s =
      (s, [], StartOutcome.passthrough ⟨some "passthrough", "bridge_paused", none⟩) := by
  simp [request_approval_start, h]

theorem C3_paused_passthrough_witness :
    pausedState.bridgePaused = true ∧
    request_approval_start testConfig reqBash "r1" 0 5 true true pausedState =
      (pausedState, [], StartOutcome.passthrough ⟨some "passthrough", "bridge_paused", none⟩) :=
  ⟨rfl, C3_paused_passthrough testConfig reqBash "r1" 0 5 true true pausedState rfl⟩

/-! ## Claim C4 -/

/-- Claim C4: when no resolution source completes an approval within
its timeout, the timeout branch of `/approve` atomically (in one
locked step) removes the approval record and its message-id mapping,
posts the chat notice `"Approbation <id> expirée (timeout <T>s). Refus
par défaut."` (prefixed by the alarm emoji), and returns
`{decision: "deny", reason: "timeout"}`. -/
theorem C4_timeout_deny (cfg : Config) (req : ApprovalRequest) (requestId : String)
    (sentMessageId : Nat) (s : BridgeState) :
    dictGet requestId
        (request_approval_timeout cfg req requestId (some sentMessageId) s).1.pendingApprovals =
      none ∧
    dictGet sentMessageId
        (request_approval_timeout cfg req requestId (some sentMessageId) s).1.messageToRequest =
      none ∧
    (request_approval_timeout cfg req requestId (some sentMessageId) s).2.1 =
      [ChatOut.message cfg.telegramChatId
        ("⏰ " ++ expiredNoticeBody requestId req.timeout)] ∧
    (request_approval_timeout cfg req requestId (some sentMessageId) s).2.2 =
      ⟨some "deny", "timeout", none⟩ := by
  refine ⟨?_, ?_, ?_, rfl⟩
  · simp [request_approval_timeout, dictGet_pop]
  · simp [request_approval_timeout, dictGet_pop]
  · simp [request_approval_timeout, timeoutNotice_eq]

/-! ## Claim C7 -/

theorem register_agent_sessions (agentId agentName : String) (now : Nat) (s : BridgeState) :
    (register_agent agentId agentName now s).activeSessions =
      dictSet agentId ⟨agentName, some now, false⟩ s.activeSessions := by
  unfold register_agent
  dsimp only
  split <;> rfl

/-- Claim C7: `register_agent(id, name)` followed by
`check_auto_approve(id)` returns `false` from any prior state; and a
second `register_agent` on an already-registered id keeps a session
with the latest name while resetting `auto_approve` to `false`, even
when it was previously true (the initial state `s` is arbitrary, so in
particular it may hold a session with `auto_approve = true`). -/
theorem C7_register_resets_auto (agentId name1 name2 : String) (t1 t2 : Nat)
    (s : BridgeState) :
    check_auto_approve agentId (register_agent agentId name1 t1 s) = false ∧
    dictGet agentId
        (register_agent agentId name2 t2 (register_agent agentId name1 t1 s)).activeSessions =
      some ⟨name2, some t2, false⟩ := by
  constructor
  · unfold check_auto_approve
    rw [register_agent_sessions, dictGet_set]
    simp
  · rw [register_agent_sessions, dictGet_set]
    simp

/-! ## Claim C10 -/

/-- Claim C10: the timeout branch of `/approve` leaves the message
queues exactly as they were — the messages that were embedded in the
expired prompt stay queued — and a subsequent `/send_message` drain
still returns them; the queue-clearing happens only in the signaled
(`request_approval_finish`) path. -/
theorem C10_timeout_preserves_queues (cfg : Config) (req : ApprovalRequest)
    (requestId : String) (sentMessageId : Option Nat) (s : BridgeState) (ms : List String)
    (hq : dictGet req.agentId s.messageQueues = some ms) (hne : ms ≠ []) :
    (request_approval_timeout cfg req requestId sentMessageId s).1.messageQueues =
      s.messageQueues ∧
    (send_message_drain req.agentId
        (request_approval_timeout cfg req requestId sentMessageId s).1).2 = ms := by
  have h1 : (request_approval_timeout cfg req requestId sentMessageId s).1.messageQueues =
      s.messageQueues := rfl
  refine ⟨h1, ?_⟩
  unfold send_message_drain
  rw [h1, hq]
  simp [hne]

def queuedState : BridgeState :=
  { initialState with messageQueues := [("main", ["focus tests"])] }

theorem C10_timeout_preserves_queues_witness :
    dictGet "main" queuedState.messageQueues = some ["focus tests"] ∧
    (["focus tests"] : List String) ≠ [] ∧
    ((request_approval_timeout testConfig reqBash "r1" (some 5) queuedState).1.messageQueues =
        queuedState.messageQueues ∧
     (send_message_drain "main"
        (request_approval_timeout testConfig reqBash "r1" (some 5) queuedState).1).2 =
       ["focus tests"]) :=
  ⟨by decide, by decide,
   C10_timeout_preserves_queues testConfig reqBash "r1" (some 5) queuedState ["focus tests"]
     (by decide) (by decide)⟩

/-! ## Claim C9 -/

theorem critical_not_safe (toolName : String)
    (h : Hook.CRITICAL_TOOLS.contains toolName = true) :
    Hook.SAFE_TOOLS.contains toolName = false := by
  simp [Hook.CRITICAL_TOOLS] at h
  rcases h with rfl | rfl | rfl | rfl <;> decide

/-- Claim C9: for every valid hook input with a non-`local` mode, a
tool in `SAFE_TOOLS = {read, list_files, search, grep, glob, view}`
makes the pre-tool hook emit `{decision: "approve"}` with no HTTP
request at all; and in `telegram` mode a tool in
`CRITICAL_TOOLS = {bash, write, edit, execute}` makes it skip the
`/check_auto_approve` call and (whenever the bridge status probe
succeeds, i.e. the bridge is reachable) go straight to `/approve`. -/
theorem C9_pre_tool_hook (mode toolName : String) (bridgeAvailable autoApprove : Bool)
    (approveDecision : String) (hmode : mode ≠ "local") :
    (Hook.SAFE_TOOLS.contains toolName = true →
      Hook.hook_pre_tool_use mode toolName bridgeAvailable autoApprove approveDecision =
        ⟨[], some "approve"⟩) ∧
    (mode = "telegram" → Hook.CRITICAL_TOOLS.contains toolName = true →
      Hook.HookCall.checkAutoApprovePost ∉
        (Hook.hook_pre_tool_use mode toolName bridgeAvailable autoApprove approveDecision).calls ∧
      (bridgeAvailable = true →
        Hook.HookCall.approvePost ∈
          (Hook.hook_pre_tool_use mode toolName bridgeAvailable autoApprove
            approveDecision).calls)) := by
  constructor
  · intro hsafe
    have hmem : toolName ∈ Hook.SAFE_TOOLS := by simpa using hsafe
    simp [Hook.hook_pre_tool_use, hmode, hmem]
  · intro hm hcrit
    subst hm
    have hcmem : toolName ∈ Hook.CRITICAL_TOOLS := by simpa using hcrit
    have hsmem : toolName ∉ Hook.SAFE_TOOLS := by
      simpa using critical_not_safe toolName hcrit
    refine ⟨?_, ?_⟩
    · cases bridgeAvailable <;> simp [Hook.hook_pre_tool_use, hsmem, hcmem]
    · intro hav
      subst hav
      simp [Hook.hook_pre_tool_use, hsmem, hcmem]

theorem C9_pre_tool_hook_witness :
    ("telegram" : String) ≠ "local" ∧
    ((Hook.SAFE_TOOLS.contains "bash" = true →
      Hook.hook_pre_tool_use "telegram" "bash" true false "deny" = ⟨[], some "approve"⟩) ∧
    (("telegram" : String) = "telegram" → Hook.CRITICAL_TOOLS.contains "bash" = true →
      Hook.HookCall.checkAutoApprovePost ∉
        (Hook.hook_pre_tool_use "telegram" "bash" true false "deny").calls ∧
      ((true : Bool) = true →
        Hook.HookCall.approvePost ∈
          (Hook.hook_pre_tool_use "telegram" "bash" true false "deny").calls))) :=
  ⟨by decide, C9_pre_tool_hook "telegram" "bash" true false "deny" (by decide)⟩

/-! ## Claim C8 -/

/-- Claim C8: every inbound chat update (any of the ten commands, a
button callback, or free text) whose chat id differs from the
configured `telegram_chat_id` leaves the bridge state completely
unchanged and produces no outbound chat message other than (for
`/start` and `/shutdown`) the `"⛔ Non autorisé."` reply to the sender
— the only other possible output being the transient button alert
`"Non autorisé"`, which is a callback answer, not a chat message. -/
theorem C8_unauthorized_updates_inert (cfg : Config) (ev : Inbound) (s : BridgeState)
    (h : ev.chatId ≠ cfg.telegramChatId) :
    (dispatch cfg ev s).1 = s ∧
    ∀ o ∈ (dispatch cfg ev s).2, o.isChatMessage = true →
      o = ChatOut.message ev.chatId "⛔ Non autorisé." := by
  cases ev <;>
    simp_all [dispatch, Inbound.chatId, cmd_start, cmd_status, cmd_agents, cmd_msg,
      cmd_pending, cmd_approve_all, cmd_deny_all, cmd_shutdown, cmd_pause, cmd_resume,
      handle_callback, handle_text_message, ChatOut.isChatMessage]

theorem C8_unauthorized_updates_inert_witness :
    (Inbound.startCmd 999).chatId ≠ testConfig.telegramChatId ∧
    ((dispatch testConfig (Inbound.startCmd 999) initialState).1 = initialState ∧
     ∀ o ∈ (dispatch testConfig (Inbound.startCmd 999) initialState).2,
       o.isChatMessage = true → o = ChatOut.message (Inbound.startCmd 999).chatId "⛔ Non autorisé.") :=
  ⟨by decide, C8_unauthorized_updates_inert testConfig (Inbound.startCmd 999) initialState
    (by decide)⟩

/-! ## Claim C5 -/

def notifyReqHello : NotificationRequest :=
  { agentId := "main", agentName := "CC", message := "hello", level := "info" }

/-- Counterexample to claim C5 as stated.  The `/notify` half holds
(double failure gives HTTP 500), but the `/approve` half does not:
when both the rich send and the plain retry of the approval prompt
fail, `request_approval` does not proceed to the latch wait — the
second exception is unhandled (`StartOutcome.sendFailed`), so the call
aborts instead of eventually timing out to a deny, and the freshly
created approval record is left behind in `pending_approvals`. -/
theorem C5_counterexample :
    (notify testConfig notifyReqHello false false).2 = NotifyResult.httpError 500 ∧
    (request_approval_start testConfig reqBash "r1" 0 5 false false initialState).2.2 =
      StartOutcome.sendFailed ∧
    dictGet "r1"
        (request_approval_start testConfig reqBash "r1" 0 5 false false
          initialState).1.pendingApprovals =
      some (freshRecord reqBash 0) ∧
    (request_approval_start testConfig reqBash "r1" 0 5 false false initialState).2.1 = [] := by
  refine ⟨rfl, rfl, ?_, rfl⟩
  decide

/-- Claim C5 as amended: every outbound chat send that fails in rich
markup is retried once as plain text (both for `/notify` and for the
`/approve` prompt); if the plain retry also fails, `/notify` returns
HTTP 500, while `/approve` propagates the send failure to its own
HTTP caller instead of proceeding: it performs no latch wait, maps no
message id, returns no decision, and leaves the just-created approval
record in the store (so no timeout-deny is produced by that call). -/
theorem C5_amended_plain_retry (cfg : Config) (nreq : NotificationRequest)
    (req : ApprovalRequest) (requestId : String) (now sentMessageId : Nat) (s : BridgeState)
    (h : s.bridgePaused = false) :
    (notify cfg nreq false true).2 = NotifyResult.sentPlain ∧
    (notify cfg nreq false false).2 = NotifyResult.httpError 500 ∧
    (request_approval_start cfg req requestId now sentMessageId false true s).2.2 =
      StartOutcome.started ((dictGet req.agentId s.messageQueues).getD []) sentMessageId true ∧
    (request_approval_start cfg req requestId now sentMessageId false false s).2.2 =
      StartOutcome.sendFailed ∧
    dictGet requestId
        (request_approval_start cfg req requestId now sentMessageId false false
          s).1.pendingApprovals =
      some (freshRecord req now) ∧
    (request_approval_start cfg req requestId now sentMessageId false false
        s).1.messageToRequest = s.messageToRequest := by
  refine ⟨rfl, rfl, ?_, ?_, ?_, ?_⟩
  · unfold request_approval_start
    rw [if_neg (by simp [h])]
    cases hq : dictGet req.agentId s.messageQueues <;> simp [hq]
  · unfold request_approval_start
    rw [if_neg (by simp [h])]
    rfl
  · unfold request_approval_start
    rw [if_neg (by simp [h])]
    simp [dictGet_set]
  · unfold request_approval_start
    rw [if_neg (by simp [h])]
    rfl

theorem C5_amended_plain_retry_witness :
    initialState.bridgePaused = false ∧
    ((notify testConfig notifyReqHello false true).2 = NotifyResult.sentPlain ∧
     (notify testConfig notifyReqHello false false).2 = NotifyResult.httpError 500 ∧
     (request_approval_start testConfig reqBash "r2" 0 6 false true initialState).2.2 =
       StartOutcome.started ((dictGet "main" initialState.messageQueues).getD []) 6 true ∧
     (request_approval_start testConfig reqBash "r2" 0 6 false false initialState).2.2 =
       StartOutcome.sendFailed ∧
     dictGet "r2"
         (request_approval_start testConfig reqBash "r2" 0 6 false false
           initialState).1.pendingApprovals =
       some (freshRecord reqBash 0) ∧
     (request_approval_start testConfig reqBash "r2" 0 6 false false
         initialState).1.messageToRequest = initialState.messageToRequest) :=
  ⟨rfl, C5_amended_plain_retry testConfig notifyReqHello reqBash "r2" 0 6 initialState rfl⟩

/-! ## Claim C1 -/

def promptMsgId : Nat := 555

/-- The bridge state right after `/approve` has created record `r1`
for `reqBash` and sent its prompt as chat message 555. -/
def c1afterStart : BridgeState :=
  (request_approval_start testConfig reqBash "r1" 0 promptMsgId true true initialState).1

def c1cbApprove : CallbackQuery :=
  { chatId := 123, messageId := promptMsgId, messageText := "prompt",
    action := "approve", requestId := "r1" }

def c1cbDeny : CallbackQuery :=
  { chatId := 123, messageId := promptMsgId, messageText := "prompt",
    action := "deny", requestId := "r1" }

/-- State after the operator presses Approve on the prompt. -/
def c1afterApprove : BridgeState := (handle_callback testConfig c1cbApprove c1afterStart).1

/-- State after the operator then presses Deny, before the blocked
`/approve` coroutine has re-acquired the lock and taken the record. -/
def c1afterDeny : BridgeState := (handle_callback testConfig c1cbDeny c1afterApprove).1

/-- Counterexample to claim C1 as stated.  In the run
prompt-sent → Approve pressed → Deny pressed → waiter wakes, the Deny
press finds `r1` still in `pending_approvals` (the waiter has not yet
removed it), so it is not a no-op: it fills the result slot a second
time (ghost `fillCount` goes 1 → 2) and signals the latch a second
time (`signalCount` 2), and the decision returned to the blocked
`/approve` caller is `deny` — the second producer's, not the first's. -/
theorem C1_counterexample :
    ((dictGet "r1" c1afterApprove.pendingApprovals).map
        (fun r => (r.response, r.fillCount, r.signalCount))) =
      some (some "approve", 1, 1) ∧
    ((dictGet "r1" c1afterDeny.pendingApprovals).map
        (fun r => (r.response, r.fillCount, r.signalCount))) =
      some (some "deny", 2, 2) ∧
    (request_approval_finish reqBash "r1" (some promptMsgId) [] c1afterDeny).2.decision =
      some "deny" := by
  refine ⟨?_, ?_, ?_⟩ <;> decide

/-- Claim C1 as amended: a resolution source acting after the record
has been removed is a no-op (an unknown `request_id` only draws the
transient "already handled" alert and leaves the state untouched);
while the record is still pending every source fills the result slot
and signals the latch, a later one overwriting an earlier one; and
the decision returned to the blocked `/approve` caller is the content
of the result slot at the moment the waiter takes the record — the
last producer's write — after which the record is gone. -/
theorem C1_amended_last_writer_wins (cfg : Config) (q : CallbackQuery)
    (req : ApprovalRequest) (requestId : String) (sentMessageId : Option Nat)
    (pendingMessagesCopy : List String) (info : ApprovalRecord) (s : BridgeState)
    (hchat : q.chatId = cfg.telegramChatId) :
    (dictGet q.requestId s.pendingApprovals = none →
      handle_callback cfg q s =
        (s, [ChatOut.callbackAnswer "⚠️ Requête expirée ou déjà traitée" true])) ∧
    (dictGet q.requestId s.pendingApprovals = some info → q.action = "approve" →
      (handle_callback cfg q s).1.pendingApprovals =
        dictSet q.requestId (fillRecord "approve" "user approved" info) s.pendingApprovals) ∧
    (dictGet requestId s.pendingApprovals = some info →
      (request_approval_finish req requestId sentMessageId pendingMessagesCopy s).2.decision =
        info.response ∧
      dictGet requestId
          (request_approval_finish req requestId sentMessageId pendingMessagesCopy
            s).1.pendingApprovals = none) := by
  refine ⟨?_, ?_, ?_⟩
  · intro hnone
    simp [handle_callback, hchat, hnone]
  · intro hsome haction
    simp [handle_callback, hchat, hsome, haction]
  · intro hsome
    constructor
    · simp [request_approval_finish, hsome]
    · simp [request_approval_finish, dictGet_pop]

/-- The record of `r1` after the Approve press: slot filled once. -/
def c1recordApproved : ApprovalRecord :=
  fillRecord "approve" "user approved" (freshRecord reqBash 0)

theorem C1_amended_last_writer_wins_witness :
    c1cbDeny.chatId = testConfig.telegramChatId ∧
    ((dictGet c1cbDeny.requestId c1afterApprove.pendingApprovals = none →
      handle_callback testConfig c1cbDeny c1afterApprove =
        (c1afterApprove, [ChatOut.callbackAnswer "⚠️ Requête expirée ou déjà traitée" true])) ∧
    (dictGet c1cbDeny.requestId c1afterApprove.pendingApprovals = some c1recordApproved →
      c1cbDeny.action = "approve" →
      (handle_callback testConfig c1cbDeny c1afterApprove).1.pendingApprovals =
        dictSet c1cbDeny.requestId (fillRecord "approve" "user approved" c1recordApproved)
          c1afterApprove.pendingApprovals) ∧
    (dictGet "r1" c1afterApprove.pendingApprovals = some c1recordApproved →
      (request_approval_finish reqBash "r1" (some promptMsgId) [] c1afterApprove).2.decision =
        c1recordApproved.response ∧
      dictGet "r1"
          (request_approval_finish reqBash "r1" (some promptMsgId) []
            c1afterApprove).1.pendingApprovals = none)) :=
  ⟨rfl, C1_amended_last_writer_wins testConfig c1cbDeny reqBash "r1" (some promptMsgId) []
    c1recordApproved c1afterApprove rfl⟩

/-! ## Claim C2 -/

/-- State after `/register_agent main` (which also creates an empty
queue for `main`). -/
def c2registered : BridgeState := register_agent "main" "CC" 0 initialState

/-- `/approve` for `main` starts: the queue is empty, so the peeked
`pending_messages` copy is `[]`; the prompt goes out as message 555. -/
def c2afterStart : BridgeState :=
  (request_approval_start testConfig reqBash "r1" 1 promptMsgId true true c2registered).1

/-- While the approval is pending, the operator runs
`/msg main hello`, enqueuing `"hello"` for `main`. -/
def c2afterMsg : BridgeState := (cmd_msg testConfig 123 ["main", "hello"] c2afterStart).1

/-- The operator presses Approve on the prompt. -/
def c2afterApprove : BridgeState := (handle_callback testConfig c1cbApprove c2afterMsg).1

/-- The waiter wakes and finishes, holding the `[]` copy it peeked at
start time. -/
def c2finish : BridgeState × ApproveResponse :=
  request_approval_finish reqBash "r1" (some promptMsgId) [] c2afterApprove

/-- Evaluation of the code on the failing input of claim C2: the
message `"hello"` enqueued for `main` between the peek and the
resolution is wiped by the wholesale `message_queues["main"].clear()`
on the signaled path without ever being delivered — the returned
reason is plain `"user approved"`, containing no `"hello"`, and the
queue is now empty, so no later `/approve` or `/send_message` can
deliver it either.  This contradicts both the claim and the code's
own comment ("Clear pending messages now that they've been
delivered"). -/
theorem C2_lost_message_evaluation :
    dictGet "main" c2afterMsg.messageQueues = some ["hello"] ∧
    dictGet "main" c2finish.1.messageQueues = some [] ∧
    c2finish.2 = ⟨some "approve", "user approved", some "r1"⟩ ∧
    strIn "hello" c2finish.2.reason = false := by
  refine ⟨?_, ?_, ?_, ?_⟩ <;> decide

/-! ## Claim C6 -/

theorem check_auto_approve_congr (X : String) (s s' : BridgeState)
    (h : s'.activeSessions = s.activeSessions) :
    check_auto_approve X s' = check_auto_approve X s := by
  unfold check_auto_approve
  rw [h]

theorem activeSessions_cmd_start (cfg : Config) (c : Int) (s : BridgeState) :
    (cmd_start cfg c s).1.activeSessions = s.activeSessions := by
  unfold cmd_start
  split <;> rfl

theorem activeSessions_cmd_status (cfg : Config) (c : Int) (now : Nat) (s : BridgeState) :
    (cmd_status cfg c now s).1.activeSessions = s.activeSessions := by
  unfold cmd_status
  split <;> rfl

theorem activeSessions_cmd_agents (cfg : Config) (c : Int) (s : BridgeState) :
    (cmd_agents cfg c s).1.activeSessions = s.activeSessions := by
  unfold cmd_agents
  (repeat' split) <;> rfl

theorem activeSessions_cmd_msg (cfg : Config) (c : Int) (args : List String) (s : BridgeState) :
    (cmd_msg cfg c args s).1.activeSessions = s.activeSessions := by
  unfold cmd_msg
  (repeat' split) <;> rfl

theorem activeSessions_cmd_pending (cfg : Config) (c : Int) (now : Nat) (s : BridgeState) :
    (cmd_pending cfg c now s).1.activeSessions = s.activeSessions := by
  unfold cmd_pending
  (repeat' split) <;> rfl

theorem activeSessions_cmd_approve_all (cfg : Config) (c : Int) (s : BridgeState) :
    (cmd_approve_all cfg c s).1.activeSessions = s.activeSessions := by
  unfold cmd_approve_all
  split <;> rfl

theorem activeSessions_cmd_deny_all (cfg : Config) (c : Int) (s : BridgeState) :
    (cmd_deny_all cfg c s).1.activeSessions = s.activeSessions := by
  unfold cmd_deny_all
  split <;> rfl

theorem activeSessions_cmd_shutdown (cfg : Config) (c : Int) (args : List String)
    (s : BridgeState) :
    (cmd_shutdown cfg c args s).1.activeSessions = s.activeSessions := by
  unfold cmd_shutdown
  (repeat' split) <;> rfl

theorem activeSessions_cmd_pause (cfg : Config) (c : Int) (s : BridgeState) :
    (cmd_pause cfg c s).1.activeSessions = s.activeSessions := by
  unfold cmd_pause
  split <;> rfl

theorem activeSessions_cmd_resume (cfg : Config) (c : Int) (s : BridgeState) :
    (cmd_resume cfg c s).1.activeSessions = s.activeSessions := by
  unfold cmd_resume
  split <;> rfl

theorem activeSessions_handle_text_message (cfg : Config) (u : TextUpdate) (s : BridgeState) :
    (handle_text_message cfg u s).1.activeSessions = s.activeSessions := by
  unfold handle_text_message
  (repeat' split) <;> rfl

theorem activeSessions_send_message_drain (agentId : String) (s : BridgeState) :
    (send_message_drain agentId s).1.activeSessions = s.activeSessions := by
  unfold send_message_drain
  (repeat' split) <;> rfl

theorem activeSessions_request_approval_start (cfg : Config) (req : ApprovalRequest)
    (requestId : String) (now sentMessageId : Nat) (richOk plainOk : Bool) (s : BridgeState) :
    (request_approval_start cfg req requestId now sentMessageId richOk plainOk
        s).1.activeSessions = s.activeSessions := by
  unfold request_approval_start
  (repeat' split) <;> rfl

theorem activeSessions_request_approval_finish (req : ApprovalRequest) (requestId : String)
    (sentMessageId : Option Nat) (pendingMessagesCopy : List String) (s : BridgeState) :
    (request_approval_finish req requestId sentMessageId pendingMessagesCopy
        s).1.activeSessions = s.activeSessions := rfl

theorem activeSessions_request_approval_timeout (cfg : Config) (req : ApprovalRequest)
    (requestId : String) (sentMessageId : Option Nat) (s : BridgeState) :
    (request_approval_timeout cfg req requestId sentMessageId s).1.activeSessions =
      s.activeSessions := rfl

/-- The full effect of the `approve_all` button on a pending record:
fill the slot with approve, signal, and write the agent's session with
`auto_approve = true` (merging into the existing session if any). -/
theorem handle_callback_approve_all (cfg : Config) (q : CallbackQuery) (info : ApprovalRecord)
    (s : BridgeState) (hchat : q.chatId = cfg.telegramChatId)
    (haction : q.action = "approve_all")
    (hrec : dictGet q.requestId s.pendingApprovals = some info) :
    (handle_callback cfg q s).1 =
      { s with
        pendingApprovals := dictSet q.requestId
          (fillRecord "approve" "user approved (session auto-approve enabled)" info)
          s.pendingApprovals,
        activeSessions := dictSet info.agentId
          (match dictGet info.agentId s.activeSessions with
           | some prev => { prev with autoApprove := true, name := info.agentName }
           | none => { name := info.agentName, registeredAt := none, autoApprove := true })
          s.activeSessions } := by
  unfold handle_callback
  rw [if_neg (by simp [hchat]), hrec]
  dsimp only
  rw [if_neg (by rw [haction]; decide), if_neg (by rw [haction]; decide), if_pos haction]

/-- A button press never turns an agent's `auto_approve` off: the only
session write in `handle_callback` is the `approve_all` branch, which
writes a session with `auto_approve = true`. -/
theorem check_handle_callback_preserves (cfg : Config) (X : String) (q : CallbackQuery)
    (s : BridgeState) (hX : check_auto_approve X s = true) :
    check_auto_approve X (handle_callback cfg q s).1 = true := by
  by_cases hchat : q.chatId = cfg.telegramChatId
  · cases hrec : dictGet q.requestId s.pendingApprovals with
    | none =>
      have hcong : check_auto_approve X (handle_callback cfg q s).1 =
          check_auto_approve X s := by
        apply check_auto_approve_congr
        unfold handle_callback
        rw [if_neg (by simp [hchat]), hrec]
      rw [hcong]; exact hX
    | some info =>
      by_cases ha1 : q.action = "approve"
      · have hcong : check_auto_approve X (handle_callback cfg q s).1 =
            check_auto_approve X s := by
          apply check_auto_approve_congr
          unfold handle_callback
          rw [if_neg (by simp [hchat]), hrec]
          dsimp only
          rw [if_pos ha1]
        rw [hcong]; exact hX
      · by_cases ha2 : q.action = "deny"
        · have hcong : check_auto_approve X (handle_callback cfg q s).1 =
              check_auto_approve X s := by
            apply check_auto_approve_congr
            unfold handle_callback
            rw [if_neg (by simp [hchat]), hrec]
            dsimp only
            rw [if_neg ha1, if_pos ha2]
          rw [hcong]; exact hX
        · by_cases ha3 : q.action = "approve_all"
          · rw [handle_callback_approve_all cfg q info s hchat ha3 hrec]
            unfold check_auto_approve
            dsimp only
            rw [dictGet_set]
            by_cases hx : info.agentId = X
            · rw [if_pos hx]
              dsimp only
              split <;> rfl
            · rw [if_neg hx]
              exact hX
          · have hcong : check_auto_approve X (handle_callback cfg q s).1 =
                check_auto_approve X s := by
              apply check_auto_approve_congr
              unfold handle_callback
              rw [if_neg (by simp [hchat]), hrec]
              dsimp only
              rw [if_neg ha1, if_neg ha2, if_neg ha3]
            rw [hcong]; exact hX
  · have hcong : check_auto_approve X (handle_callback cfg q s).1 =
        check_auto_approve X s := by
      apply check_auto_approve_congr
      unfold handle_callback
      rw [if_pos hchat]
    rw [hcong]; exact hX

theorem stepEv_preserves_auto (cfg : Config) (X : String) (e : Ev) (s : BridgeState)
    (hX : check_auto_approve X s = true) (he : e.touchesRegistration X = false) :
    check_auto_approve X (stepEv cfg s e) = true := by
  cases e with
  | inbound ev =>
    cases ev with
    | startCmd c =>
      exact (check_auto_approve_congr X s _ (activeSessions_cmd_start cfg c s)).trans hX
    | statusCmd c now =>
      exact (check_auto_approve_congr X s _ (activeSessions_cmd_status cfg c now s)).trans hX
    | agentsCmd c =>
      exact (check_auto_approve_congr X s _ (activeSessions_cmd_agents cfg c s)).trans hX
    | msgCmd c args =>
      exact (check_auto_approve_congr X s _ (activeSessions_cmd_msg cfg c args s)).trans hX
    | pendingCmd c now =>
      exact (check_auto_approve_congr X s _ (activeSessions_cmd_pending cfg c now s)).trans hX
    | approveAllCmd c =>
      exact (check_auto_approve_congr X s _ (activeSessions_cmd_approve_all cfg c s)).trans hX
    | denyAllCmd c =>
      exact (check_auto_approve_congr X s _ (activeSessions_cmd_deny_all cfg c s)).trans hX
    | shutdownCmd c args =>
      exact (check_auto_approve_congr X s _ (activeSessions_cmd_shutdown cfg c args s)).trans hX
    | pauseCmd c =>
      exact (check_auto_approve_congr X s _ (activeSessions_cmd_pause cfg c s)).trans hX
    | resumeCmd c =>
      exact (check_auto_approve_congr X s _ (activeSessions_cmd_resume cfg c s)).trans hX
    | callback q => exact check_handle_callback_preserves cfg X q s hX
    | freeText u =>
      exact (check_auto_approve_congr X s _
        (activeSessions_handle_text_message cfg u s)).trans hX
  | reg a n t =>
    have ha : ¬ a = X := by simpa [Ev.touchesRegistration] using he
    show check_auto_approve X (register_agent a n t s) = true
    unfold check_auto_approve
    rw [register_agent_sessions, dictGet_set, if_neg ha]
    exact hX
  | unreg a =>
    have ha : ¬ a = X := by simpa [Ev.touchesRegistration] using he
    show check_auto_approve X (unregister_agent a s) = true
    unfold check_auto_approve
    rw [show (unregister_agent a s).activeSessions = dictPop a s.activeSessions from rfl,
      dictGet_pop, if_neg ha]
    exact hX
  | drain a =>
    exact (check_auto_approve_congr X s _ (activeSessions_send_message_drain a s)).trans hX
  | approveStart req rid now mid richOk plainOk =>
    exact (check_auto_approve_congr X s _
      (activeSessions_request_approval_start cfg req rid now mid richOk plainOk s)).trans hX
  | approveFinish req rid mid pend =>
    exact (check_auto_approve_congr X s _
      (activeSessions_request_approval_finish req rid mid pend s)).trans hX
  | approveTimeout req rid mid =>
    exact (check_auto_approve_congr X s _
      (activeSessions_request_approval_timeout cfg req rid mid s)).trans hX

theorem runEvents_preserves_auto (cfg : Config) (X : String) (evs : List Ev) (s : BridgeState)
    (hX : check_auto_approve X s = true)
    (hevs : ∀ e ∈ evs, e.touchesRegistration X = false) :
    check_auto_approve X (runEvents cfg evs s) = true := by
  induction evs generalizing s with
  | nil => exact hX
  | cons e rest ih =>
    have h1 : check_auto_approve X (stepEv cfg s e) = true :=
      stepEv_preserves_auto cfg X e s hX (hevs e (by simp))
    exact ih (stepEv cfg s e) h1 (fun e' he' => hevs e' (by simp [he']))

def reqWorker : ApprovalRequest :=
  { agentId := "x", agentName := "X", toolName := "bash", toolInput := "ls",
    description := "", timeout := 10 }

def c6registered : BridgeState := register_agent "x" "X" 0 initialState

def c6afterStart : BridgeState :=
  (request_approval_start testConfig reqWorker "r2" 1 700 true true c6registered).1

def c6cbApproveAll : CallbackQuery :=
  { chatId := 123, messageId := 700, messageText := "prompt",
    action := "approve_all", requestId := "r2" }

/-- State after the operator presses the `approve_all` button on the
pending approval of agent `x`. -/
def c6afterApproveAll : BridgeState := (handle_callback testConfig c6cbApproveAll c6afterStart).1

/-- State after a subsequent `/register_agent` for `x` — note there is
no `/unregister_agent` anywhere in this run. -/
def c6afterReregister : BridgeState := register_agent "x" "X" 2 c6afterApproveAll

/-- Counterexample to claim C6 as stated.  After `approve_all` the
flag is on and the `/approve` call resolves to `approve`, but a later
`/register_agent` for the same agent (which the hooks issue on every
notification) resets `auto_approve` to `false` even though
`/unregister_agent` was never called — so "every subsequent
`/check_auto_approve` returns true until `/unregister_agent`" fails. -/
theorem C6_counterexample :
    check_auto_approve "x" c6afterApproveAll = true ∧
    (request_approval_finish reqWorker "r2" (some 700) [] c6afterApproveAll).2.decision =
      some "approve" ∧
    check_auto_approve "x" c6afterReregister = false := by
  refine ⟨?_, ?_, ?_⟩ <;> decide

/-- Claim C6 as amended: pressing `approve_all` on a pending approval
for agent X completes that approval as `approve` (the blocked
`/approve` caller gets decision `approve` when it takes the record)
and sets X's session `auto_approve` to true; the flag then stays true
across any sequence of bridge events that contains no
`/register_agent` and no `/unregister_agent` for X — `register_agent`
resets it to `false`, so stickiness holds only up to the next
register or unregister of X. -/
theorem C6_amended_sticky_until_reregister (cfg : Config) (q : CallbackQuery)
    (info : ApprovalRecord) (s : BridgeState) (evs : List Ev)
    (hchat : q.chatId = cfg.telegramChatId) (haction : q.action = "approve_all")
    (hrec : dictGet q.requestId s.pendingApprovals = some info)
    (hevs : ∀ e ∈ evs, e.touchesRegistration info.agentId = false) :
    (∀ (req : ApprovalRequest) (sentMessageId : Option Nat)
       (pendingMessagesCopy : List String),
       (request_approval_finish req q.requestId sentMessageId pendingMessagesCopy
         (handle_callback cfg q s).1).2.decision = some "approve") ∧
    check_auto_approve info.agentId (runEvents cfg evs (handle_callback cfg q s).1) = true ∧
    check_auto_approve info.agentId
        (register_agent info.agentId "X" 0 (runEvents cfg evs (handle_callback cfg q s).1)) =
      false := by
  have hcb : check_auto_approve info.agentId (handle_callback cfg q s).1 = true := by
    rw [handle_callback_approve_all cfg q info s hchat haction hrec]
    unfold check_auto_approve
    dsimp only
    rw [dictGet_set, if_pos rfl]
    dsimp only
    split <;> rfl
  refine ⟨?_, ?_, ?_⟩
  · intro req sentMessageId pendingMessagesCopy
    have hrec' : dictGet q.requestId (handle_callback cfg q s).1.pendingApprovals =
        some (fillRecord "approve" "user approved (session auto-approve enabled)" info) := by
      rw [handle_callback_approve_all cfg q info s hchat haction hrec]
      dsimp only
      rw [dictGet_set, if_pos rfl]
    unfold request_approval_finish
    rw [hrec']
    rfl
  · exact runEvents_preserves_auto cfg info.agentId evs _ hcb hevs
  · unfold check_auto_approve
    rw [register_agent_sessions, dictGet_set, if_pos rfl]

theorem C6_amended_sticky_until_reregister_witness :
    c6cbApproveAll.chatId = testConfig.telegramChatId ∧
    c6cbApproveAll.action = "approve_all" ∧
    dictGet c6cbApproveAll.requestId c6afterStart.pendingApprovals =
      some (freshRecord reqWorker 1) ∧
    (∀ e ∈ [Ev.drain "main"],
      Ev.touchesRegistration (freshRecord reqWorker 1).agentId e = false) ∧
    ((∀ (req : ApprovalRequest) (sentMessageId : Option Nat)
        (pendingMessagesCopy : List String),
        (request_approval_finish req c6cbApproveAll.requestId sentMessageId pendingMessagesCopy
          (handle_callback testConfig c6cbApproveAll c6afterStart).1).2.decision =
          some "approve") ∧
     check_auto_approve (freshRecord reqWorker 1).agentId
        (runEvents testConfig [Ev.drain "main"]
          (handle_callback testConfig c6cbApproveAll c6afterStart).1) = true ∧
     check_auto_approve (freshRecord reqWorker 1).agentId
        (register_agent (freshRecord reqWorker 1).agentId "X" 0
          (runEvents testConfig [Ev.drain "main"]
            (handle_callback testConfig c6cbApproveAll c6afterStart).1)) = false) :=
  ⟨rfl, rfl, by decide, by decide,
   C6_amended_sticky_until_reregister testConfig c6cbApproveAll (freshRecord reqWorker 1)
     c6afterStart [Ev.drain "main"] rfl rfl (by decide) (by decide)⟩

end Bridge


